import Mathlib

/-!
Verification of the AadharPulse data-qualification and analytics pipeline
against its specification.  The repository's own sources only contain the
dashboard frontend (`frontend/hooks/use-synthesis.ts` and components); the
backend pipeline (SchemaGatekeeper, Bronze/Silver/Gold stores, GoldAggregator,
MaturityClassifier) is modelled here from the specification text, faithful to
its words.  The frontend `Home` page computation and the `SynthesisData`
interface are embedded directly from `use-synthesis.ts`.
-/

namespace AadharPulse

/-- Modelled from the spec (§4.1, §9): the closed tagged variant of recognised
CSV schema types; the backend `SchemaGatekeeper` source is not part of the
repository snapshot. -/
inductive SchemaType where
  | enrolment
  | biometric_update
  | demographic_update
deriving DecidableEq, Repr

/-- Modelled from the spec (§4.1 table): the fixed column signature required
for each schema type. -/
def requiredColumns : SchemaType → List String
  | .enrolment => ["date", "state", "district", "pincode",
                   "age_0_5", "age_5_17", "age_18_greater"]
  | .biometric_update => ["date", "state", "district", "pincode",
                          "bio_age_5_17", "bio_age_17_"]
  | .demographic_update => ["date", "state", "district", "pincode",
                            "demo_age_5_17", "demo_age_17_"]

/-- Modelled from the spec (§4.1): header matching for one signature.  The
match is exact-set and case-sensitive: every required column must be present
in the header; extra unknown columns are ignored. -/
def headerMatches (header : List String) (t : SchemaType) : Bool :=
  (requiredColumns t).all (fun c => header.contains c)

/-- Modelled from the spec (§4.1): `classify(header) -> SchemaType |
Unrecognized`, a pure lookup against the three fixed column signatures;
`none` plays the role of `Unrecognized`. -/
def classify (header : List String) : Option SchemaType :=
  if headerMatches header .enrolment then some .enrolment
  else if headerMatches header .biometric_update then some .biometric_update
  else if headerMatches header .demographic_update then some .demographic_update
  else none

/-- Modelled from the spec (§3): a calendar date as carried by a Silver
CleanFact. -/
structure Date where
  year : Nat
  month : Nat
  day : Nat
deriving DecidableEq, Repr

/-- Modelled from the spec (§3): a Silver-layer CleanFact
`{schema_type, date, state, district, pincode, measures}`, with `measures`
a string-keyed map of numeric values. -/
structure CleanFact where
  schema_type : SchemaType
  date : Date
  state : String
  district : String
  pincode : String
  measures : List (String × ℚ)
deriving DecidableEq, Repr

/-- A named measure of a CleanFact, defaulting to 0 when absent. -/
def measureOf (f : CleanFact) (k : String) : ℚ :=
  (f.measures.lookup k).getD 0

/-- Modelled from the spec (§4.4): `adult_enrolments` sums the
`age_18_greater` measure over the enrolment facts of the window. -/
def adultEnrolments (fs : List CleanFact) : ℚ :=
  ((fs.filter (fun f => f.schema_type == .enrolment)).map
    (fun f => measureOf f "age_18_greater")).sum

/-- Modelled from the spec (§4.4): total enrolments over the window, the sum
of all three age-bucket measures of the enrolment facts. -/
def totalEnrolments (fs : List CleanFact) : ℚ :=
  ((fs.filter (fun f => f.schema_type == .enrolment)).map
    (fun f => measureOf f "age_0_5" + measureOf f "age_5_17"
      + measureOf f "age_18_greater")).sum

/-- Modelled from the spec (§4.4): total biometric-update volume over the
window, summed from the biometric-update facts. -/
def biometricUpdates (fs : List CleanFact) : ℚ :=
  ((fs.filter (fun f => f.schema_type == .biometric_update)).map
    (fun f => measureOf f "bio_age_5_17" + measureOf f "bio_age_17_")).sum

/-- Modelled from the spec (§4.4): total demographic-update volume over the
window, summed from the demographic-update facts. -/
def demographicUpdates (fs : List CleanFact) : ℚ :=
  ((fs.filter (fun f => f.schema_type == .demographic_update)).map
    (fun f => measureOf f "demo_age_5_17" + measureOf f "demo_age_17_")).sum

/-- Modelled from the spec (§4.4): MII (Migration Impact Index)
`= adult_enrolments / total_enrolments`, undefined when there are no
enrolments. -/
def mii (fs : List CleanFact) : Option ℚ :=
  if totalEnrolments fs = 0 then none
  else some (adultEnrolments fs / totalEnrolments fs)

/-- Modelled from the spec (§4.4): the "Migration Hotspot" flag, raised
exactly when MII is strictly greater than 0.40. -/
def migrationHotspot (fs : List CleanFact) : Bool :=
  match mii fs with
  | none => false
  | some m => decide ((2 : ℚ) / 5 < m)

/-- Modelled from the spec (§4.4): DHR (Data Hygiene Ratio)
`= (biometric_updates + demographic_updates) / enrolments`, undefined when
there are no enrolments. -/
def dhr (fs : List CleanFact) : Option ℚ :=
  if totalEnrolments fs = 0 then none
  else some ((biometricUpdates fs + demographicUpdates fs) / totalEnrolments fs)

/-- Modelled from the spec (§4.4): the "High Risk" flag, raised exactly when
DHR is strictly greater than 1.5. -/
def highRisk (fs : List CleanFact) : Bool :=
  match dhr fs with
  | none => false
  | some d => decide ((3 : ℚ) / 2 < d)

/-- Arithmetic mean of a daily series (0 on the empty series, as its sum
is 0 and `q / 0 = 0`). -/
def mean (xs : List ℚ) : ℚ := xs.sum / xs.length

/-- Population variance of a daily series. -/
def variance (xs : List ℚ) : ℚ :=
  ((xs.map (fun x => (x - mean xs) ^ 2)).sum) / xs.length

/-- Standard deviation of a daily series, as a real number. -/
noncomputable def stddev (xs : List ℚ) : ℝ :=
  Real.sqrt ((variance xs : ℚ) : ℝ)

/-- Modelled from the spec (§4.4): OVS (Operational Volatility Score)
`= (stddev(x) / mean(x)) * 10`, reported as `null` (here `none`), not zero,
when `mean(x) = 0`. -/
noncomputable def ovs (xs : List ℚ) : Option ℝ :=
  if mean xs = 0 then none
  else some (stddev xs / ((mean xs : ℚ) : ℝ) * 10)

/-- Modelled from the spec (§3): a Bronze RawRecord; the lineage fields that
do not affect the claims (`ingested_at`) are carried as plain data. -/
structure RawRecord where
  schema_type : SchemaType
  source_row : Nat
  raw_fields : List (String × String)
deriving DecidableEq, Repr

/-- Modelled from the spec (§4.2): the receipt returned by a Bronze append. -/
structure BatchReceipt where
  batch_id : Nat
  row_count : Nat
deriving DecidableEq, Repr

/-- Modelled from the spec (§4.2): the append-only Bronze store.  `seen` maps
each already-ingested batch content (standing in for its content hash, a
collision-free hash being injective on the ingested contents) to the original
receipt; `rows` is the appended raw data. -/
structure BronzeStore where
  seen : List (List RawRecord × BatchReceipt)
  rows : List RawRecord
  next_id : Nat
deriving DecidableEq, Repr

/-- Modelled from the spec (§4.2): `append(batch) -> BatchReceipt`, idempotent
at the batch level — re-submitting an already-ingested batch (identical
content hash) is a no-op returning the original receipt. -/
def bronzeAppend (s : BronzeStore) (batch : List RawRecord) :
    BronzeStore × BatchReceipt :=
  match s.seen.find? (fun p => p.1 == batch) with
  | some p => (s, p.2)
  | none =>
      let r : BatchReceipt := ⟨s.next_id, batch.length⟩
      (⟨(batch, r) :: s.seen, s.rows ++ batch, s.next_id + 1⟩, r)

/-- Bronze row count, the number of raw rows visible in the store. -/
def bronzeRowCount (s : BronzeStore) : Nat := s.rows.length

/-- Parse a non-negative integer count field. -/
def parseCount (s : String) : Option ℚ :=
  (s.toNat?).map (fun n => (n : ℚ))

/-- Modelled from the spec (§4.1): a pincode is exactly six digits. -/
def pincodeOk (s : String) : Bool :=
  s.length == 6 && s.toList.all (fun c => c.isDigit)

/-- Modelled from the spec (§4.1, §4.3): date parsing accepting ISO
(`YYYY-MM-DD`) and day-first (`DD-MM-YYYY`) forms, failing closed on anything
else; range-checks month and day. -/
def parseDate (s : String) : Option Date :=
  match (s.splitOn "-").map String.toNat? with
  | [some a, some mo, some b] =>
      if s.length == 10 then
        let d : Date := if b ≥ 100 then ⟨b, mo, a⟩ else ⟨a, mo, b⟩
        if 1 ≤ d.month && d.month ≤ 12 && 1 ≤ d.day && d.day ≤ 31 then some d
        else none
      else none
  | _ => none

/-- The measure column names carried by each schema type. -/
def measureColumns : SchemaType → List String
  | .enrolment => ["age_0_5", "age_5_17", "age_18_greater"]
  | .biometric_update => ["bio_age_5_17", "bio_age_17_"]
  | .demographic_update => ["demo_age_5_17", "demo_age_17_"]

/-- Modelled from the spec (§4.3): parse and cast a Bronze raw record of the
given schema type into a CleanFact; any unparsable field rejects the row. -/
def parseRow (t : SchemaType) (r : RawRecord) : Option CleanFact := do
  let get := fun (k : String) => r.raw_fields.lookup k
  let dateS ← get "date"
  let d ← parseDate dateS
  let st ← get "state"
  let di ← get "district"
  let pc ← get "pincode"
  if pincodeOk pc then
    let ms ← (measureColumns t).mapM (fun k => do
      let v ← get k
      let q ← parseCount v
      pure (k, q))
    pure ⟨t, d, st, di, pc, ms⟩
  else none

/-- The Silver uniqueness key `(schema_type, date, pincode)` of a CleanFact. -/
def factKey (f : CleanFact) : SchemaType × Date × String :=
  (f.schema_type, f.date, f.pincode)

/-- Modelled from the spec (§4.3): drop exact duplicate
`(schema_type, date, pincode)` keys, keeping the first-seen row. -/
def dedupByKey : List (SchemaType × Date × String) → List CleanFact →
    List CleanFact
  | _, [] => []
  | seen, f :: fs =>
      if factKey f ∈ seen then dedupByKey seen fs
      else f :: dedupByKey (factKey f :: seen) fs

/-- Modelled from the spec (§4.3): the Silver transform of one Bronze
partition: parse/cast each raw record, drop rejects, then deduplicate by the
Silver key keeping first-seen. -/
def transformBronze (t : SchemaType) (bronze : List RawRecord) :
    List CleanFact :=
  dedupByKey []
    (((bronze.filter (fun r => r.schema_type == t)).filterMap (parseRow t)))

/-- Modelled from the spec (§4.3, §5): the lake state read and written by a
Silver run — a Bronze snapshot and the Silver snapshot derived from it. -/
structure LakeState where
  bronze : List RawRecord
  silver : List CleanFact
deriving DecidableEq, Repr

/-- Modelled from the spec (§4.3): `SilverTransformer.run(schema_type)`
replaces (rather than accumulates into) the Silver snapshot with the
transform of the current Bronze snapshot. -/
def silverRun (t : SchemaType) (st : LakeState) : LakeState :=
  ⟨st.bronze, transformBronze t st.bronze⟩

/-- The distinct districts appearing in a Silver snapshot. -/
def districtsOf (facts : List CleanFact) : List String :=
  (facts.map (fun f => f.district)).dedup

/-- The daily enrolment observations of a district within the window. -/
def districtObs (facts : List CleanFact) (d : String) : List CleanFact :=
  facts.filter (fun f => f.district == d && f.schema_type == SchemaType.enrolment)

/-- The daily total-enrolment series of a district. -/
def dailySeries (facts : List CleanFact) (d : String) : List ℚ :=
  (districtObs facts d).map
    (fun f => measureOf f "age_0_5" + measureOf f "age_5_17"
      + measureOf f "age_18_greater")

/-- Modelled from the spec (§4.4, open in the source material): the
period-over-period percentage change of total enrolment, taken between the
two halves of the window series (with `q / 0 = 0` when the earlier half is
empty of enrolment). -/
def growthRate (xs : List ℚ) : ℚ :=
  let firstHalf := xs.take (xs.length / 2)
  let secondHalf := xs.drop (xs.length / 2)
  (secondHalf.sum - firstHalf.sum) / firstHalf.sum * 100

/-- Modelled from the spec (§3): the per-district Gold feature vector fields
used by the claims (`TLP` is not touched by any claim and is omitted). -/
structure FeatureVec where
  ovs_score : Option ℝ
  mii_score : Option ℚ
  dhr_score : Option ℚ
  growth_rate : ℚ

/-- The Gold features of one district, computed from its window facts. -/
noncomputable def computeFeatures (facts : List CleanFact) (d : String) :
    FeatureVec :=
  let dfs := facts.filter (fun f => f.district == d)
  ⟨ovs (dailySeries facts d), mii dfs, dhr dfs, growthRate (dailySeries facts d)⟩

/-- Modelled from the spec (§4.4, §7): the per-district Gold outcome — either
`InsufficientData` (excluded from scoring, reported not hidden) or a scored
feature vector. -/
inductive GoldResult where
  | insufficientData
  | scored (f : FeatureVec)

/-- Modelled from the spec (§4.4): a district with fewer observations than
the configurable minimum sample count is excluded from scoring and flagged
`insufficient_data`; otherwise it is scored. -/
noncomputable def goldResult (minSamples : Nat) (facts : List CleanFact)
    (d : String) : GoldResult :=
  if (districtObs facts d).length < minSamples then .insufficientData
  else .scored (computeFeatures facts d)

/-- The OVS reported for a Gold outcome: a district flagged
`insufficient_data` carries no numeric OVS. -/
def resultOVS : GoldResult → Option ℝ
  | .insufficientData => none
  | .scored f => f.ovs_score

/-- Modelled from the spec (§4.4): the Gold table, one outcome per district. -/
noncomputable def goldAggregate (minSamples : Nat) (facts : List CleanFact) :
    List (String × GoldResult) :=
  (districtsOf facts).map (fun d => (d, goldResult minSamples facts d))

/-- The four-coordinate feature vector `{OVS, MII, DHR, growth_rate}` fed to
the maturity classifier. -/
structure Vec4 where
  ovs : ℝ
  mii : ℝ
  dhr : ℝ
  growth : ℝ

instance : Inhabited Vec4 := ⟨⟨0, 0, 0, 0⟩⟩

/-- The classifier input vector of a scored district. -/
noncomputable def vec4Of (f : FeatureVec) : Vec4 :=
  ⟨(f.ovs_score).getD 0, (((f.mii_score).getD 0 : ℚ) : ℝ),
   (((f.dhr_score).getD 0 : ℚ) : ℝ), ((f.growth_rate : ℚ) : ℝ)⟩

/-- Modelled from the spec (§4.5): only scored districts enter clustering;
districts below the minimum sample count are excluded and left unlabeled. -/
noncomputable def clusterInput (minSamples : Nat) (facts : List CleanFact) :
    List (String × Vec4) :=
  (goldAggregate minSamples facts).filterMap
    (fun p => match p.2 with
      | .scored f => some (p.1, vec4Of f)
      | .insufficientData => none)

/-- Column mean used by the batch standardization. -/
noncomputable def colMean (vs : List ℝ) : ℝ := vs.sum / vs.length

/-- Column population variance used by the batch standardization. -/
noncomputable def colVar (vs : List ℝ) : ℝ :=
  ((vs.map (fun x => (x - colMean vs) ^ 2)).sum) / vs.length

/-- Zero-mean / unit-variance rescaling of one value against its batch
column (degenerate columns with zero variance rescale to 0, as `x / 0 = 0`). -/
noncomputable def zscore (vs : List ℝ) (x : ℝ) : ℝ :=
  (x - colMean vs) / Real.sqrt (colVar vs)

/-- Modelled from the spec (§4.5): each coordinate is rescaled to zero mean
and unit variance using statistics of the current batch only. -/
noncomputable def standardize (input : List (String × Vec4)) :
    List (String × Vec4) :=
  let os := input.map (fun p => p.2.ovs)
  let ms := input.map (fun p => p.2.mii)
  let ds := input.map (fun p => p.2.dhr)
  let gs := input.map (fun p => p.2.growth)
  input.map (fun p =>
    (p.1, ⟨zscore os p.2.ovs, zscore ms p.2.mii,
           zscore ds p.2.dhr, zscore gs p.2.growth⟩))

/-- Squared Euclidean distance between feature vectors. -/
noncomputable def dist2 (a b : Vec4) : ℝ :=
  (a.ovs - b.ovs) ^ 2 + (a.mii - b.mii) ^ 2
    + (a.dhr - b.dhr) ^ 2 + (a.growth - b.growth) ^ 2

/-- Index of the nearest centroid (first wins on ties). -/
noncomputable def nearestIdx (cs : List Vec4) (p : Vec4) : Nat :=
  (cs.enum.foldl
    (fun best q =>
      if dist2 q.2 p < dist2 (cs.getD best default) p then q.1 else best) 0)

/-- Mean of an assigned point set, keeping the old centroid when the set is
empty. -/
noncomputable def centroidOf (pts : List Vec4) (old : Vec4) : Vec4 :=
  if pts.length = 0 then old
  else ⟨(pts.map (fun p => p.ovs)).sum / pts.length,
        (pts.map (fun p => p.mii)).sum / pts.length,
        (pts.map (fun p => p.dhr)).sum / pts.length,
        (pts.map (fun p => p.growth)).sum / pts.length⟩

/-- One Lloyd iteration: reassign every point to its nearest centroid and
recompute each centroid as the mean of its assigned points. -/
noncomputable def lloydStep (pts : List Vec4) (cs : List Vec4) : List Vec4 :=
  cs.enum.map
    (fun q => centroidOf (pts.filter (fun p => nearestIdx cs p == q.1)) q.2)

/-- Fixed-fuel Lloyd iteration. -/
noncomputable def lloyd (pts : List Vec4) : Nat → List Vec4 → List Vec4
  | 0, cs => cs
  | n + 1, cs => lloyd pts n (lloydStep pts cs)

/-- Modelled from the spec (§4.5): the fixed deterministic seed stream used
to pick the initial centroids. -/
def lcg (s : Nat) : Nat := (1103515245 * s + 12345) % 2147483648

/-- Seeded deterministic choice of the three initial centroids among the
data points. -/
noncomputable def initCentroids (seed : Nat) (pts : List Vec4) : List Vec4 :=
  [pts.getD (seed % pts.length) default,
   pts.getD (lcg seed % pts.length) default,
   pts.getD (lcg (lcg seed) % pts.length) default]

/-- Modelled from the spec (§4.5): k-means with `k = 3` and a fixed random
seed, run for a fixed iteration budget. -/
noncomputable def kmeansFit (seed : Nat) (pts : List Vec4) : List Vec4 :=
  lloyd pts 10 (initCentroids seed pts)

/-- Modelled from the spec (§3, §4.5): the closed set of semantic maturity
labels. -/
inductive Label where
  | emerging
  | mature
  | highChurn
deriving DecidableEq, Repr

/-- Modelled from the spec (§4.5): rank of centroid `k` among the fitted
centroids, ordered by their `growth_rate` coordinate (ties resolved by
centroid index), so raw cluster identifiers never leak into labels. -/
noncomputable def rankOf (cs : List Vec4) (k : Nat) : Nat :=
  (cs.enum.filter
    (fun q => decide (q.2.growth < (cs.getD k default).growth
      ∨ (q.2.growth = (cs.getD k default).growth ∧ q.1 < k)))).length

/-- Modelled from the spec (§4.5): lowest growth ⇒ "High Churn", middle ⇒
"Emerging", highest ⇒ "Mature". -/
def labelOfRank : Nat → Label
  | 0 => .highChurn
  | 1 => .emerging
  | _ => .mature

/-- Modelled from the spec (§4.5): the full classifier run — standardize the
batch, fit seeded k-means, then label every district by the growth-rank of
its nearest centroid.  Fewer than `k = 3` districts cannot be clustered and
yield no labels. -/
noncomputable def runClassifier (seed : Nat) (input : List (String × Vec4)) :
    List (String × Label) :=
  if input.length < 3 then []
  else
    let z := standardize input
    let cs := kmeansFit seed (z.map Prod.snd)
    z.map (fun p => (p.1, labelOfRank (rankOf cs (nearestIdx cs p.2))))

/-- The classifier-annotated Gold labels produced by one pipeline run. -/
noncomputable def pipelineLabels (seed : Nat) (minSamples : Nat)
    (facts : List CleanFact) : List (String × Label) :=
  runClassifier seed (clusterInput minSamples facts)

/-- Embedded from `frontend/hooks/use-synthesis.ts` (`SynthesisData`):
`cluster_distribution` has exactly the three keys `Emerging`, `Mature` and
`"High Churn"`. -/
structure ClusterDistribution where
  emerging : Nat
  mature : Nat
  high_churn : Nat
deriving DecidableEq, Repr

/-- The cluster distribution tallied from a label list; every label falls in
exactly one of the three keys. -/
def clusterDistribution (ls : List (String × Label)) : ClusterDistribution :=
  ⟨ls.countP (fun p => p.2 == Label.emerging),
   ls.countP (fun p => p.2 == Label.mature),
   ls.countP (fun p => p.2 == Label.highChurn)⟩

/-- Embedded from `frontend/hooks/use-synthesis.ts` (`SynthesisData`). -/
structure SynthesisData where
  cluster_distribution : ClusterDistribution
  total_districts : Nat
  ghost_districts : List String
  high_utilization_pincodes : List String
deriving DecidableEq, Repr

/-- Embedded from the `Home` page: `data?.total_districts || 0`. -/
def totalOf (d : Option SynthesisData) : Nat :=
  match d with
  | none => 0
  | some s => s.total_districts

/-- Embedded from the `Home` page: `data?.cluster_distribution?.Mature || 0`. -/
def matureOf (d : Option SynthesisData) : Nat :=
  match d with
  | none => 0
  | some s => s.cluster_distribution.mature

/-- Embedded from the `Home` page:
`data?.cluster_distribution?.["High Churn"] || 0`. -/
def churnOf (d : Option SynthesisData) : Nat :=
  match d with
  | none => 0
  | some s => s.cluster_distribution.high_churn

/-- JavaScript `Number.prototype.toFixed(1)` on a non-negative rational:
round to one decimal place and print with exactly one digit after the
point. -/
def toFixed1 (q : ℚ) : String :=
  let n : Nat := (round (q * 10) : ℤ).toNat
  toString (n / 10) ++ "." ++ toString (n % 10)

/-- Embedded from the `Home` page:
`total > 0 ? ((mature / total) * 100).toFixed(1) + "%" : "0%"`. -/
def saturationDisplay (d : Option SynthesisData) : String :=
  if 0 < totalOf d then
    toFixed1 (((matureOf d : ℚ)) / ((totalOf d : ℚ)) * 100) ++ "%"
  else "0%"

/-- Embedded from the `Home` page:
`total > 0 ? ((churn / total) * 100).toFixed(1) + "%" : "0%"`. -/
def churnRateDisplay (d : Option SynthesisData) : String :=
  if 0 < totalOf d then
    toFixed1 (((churnOf d : ℚ)) / ((totalOf d : ℚ)) * 100) ++ "%"
  else "0%"

/-! Theorems. -/

/-- Header matching unfolded to plain membership of required columns. -/
theorem headerMatches_iff (header : List String) (t : SchemaType) :
    headerMatches header t = true ↔ ∀ c ∈ requiredColumns t, c ∈ header := by
  simp [headerMatches]

/-- C4: a header containing all seven required enrolment columns (with any
extra unknown columns ignored) classifies as `enrolment`; a header missing at
least one required column of each of the three signatures classifies as
`Unrecognized` (`none`). -/
theorem C4_classify_signatures :
    (∀ header : List String,
        (∀ c ∈ requiredColumns .enrolment, c ∈ header) →
        classify header = some .enrolment) ∧
    (∀ header : List String,
        (∃ c ∈ requiredColumns .enrolment, c ∉ header) →
        (∃ c ∈ requiredColumns .biometric_update, c ∉ header) →
        (∃ c ∈ requiredColumns .demographic_update, c ∉ header) →
        classify header = none) := by
  constructor
  · intro header h
    have hm : headerMatches header .enrolment = true :=
      (headerMatches_iff header .enrolment).mpr h
    simp [classify, hm]
  · intro header h1 h2 h3
    have hm1 : headerMatches header .enrolment = false := by
      rcases h1 with ⟨c, hc, hnc⟩
      rcases hb : headerMatches header .enrolment with _ | _
      · rfl
      · exact absurd ((headerMatches_iff header .enrolment).mp hb c hc) hnc
    have hm2 : headerMatches header .biometric_update = false := by
      rcases h2 with ⟨c, hc, hnc⟩
      rcases hb : headerMatches header .biometric_update with _ | _
      · rfl
      · exact absurd ((headerMatches_iff header .biometric_update).mp hb c hc)
          hnc
    have hm3 : headerMatches header .demographic_update = false := by
      rcases h3 with ⟨c, hc, hnc⟩
      rcases hb : headerMatches header .demographic_update with _ | _
      · rfl
      · exact absurd ((headerMatches_iff header .demographic_update).mp hb c hc)
          hnc
    simp [classify, hm1, hm2, hm3]

/-- Witness for C4 at concrete headers: a full enrolment header with an extra
unknown column classifies as `enrolment`, a header missing required columns
of all three signatures is unrecognized. -/
theorem C4_classify_signatures_witness :
    classify ["date", "state", "district", "pincode", "age_0_5", "age_5_17",
      "age_18_greater", "some_extra_column"] = some .enrolment ∧
    classify ["date", "state"] = none :=
  ⟨C4_classify_signatures.1 _ (by decide),
   C4_classify_signatures.2 _ ⟨"age_0_5", by decide, by decide⟩
     ⟨"bio_age_5_17", by decide, by decide⟩
     ⟨"demo_age_5_17", by decide, by decide⟩⟩

/-- A one-row district window with `adult = 400` out of `total = 1000`
enrolments. -/
def exampleMiiFacts : List CleanFact :=
  [⟨.enrolment, ⟨2024, 1, 15⟩, "KARNATAKA", "BANGALORE", "560001",
    [("age_0_5", 300), ("age_5_17", 300), ("age_18_greater", 400)]⟩]

/-- C2: with positive total enrolments, MII equals
`adult_enrolments / total_enrolments` (adult summing `age_18_greater`), and
the "Migration Hotspot" flag holds iff MII is strictly greater than 0.40; at
`adult = 400, total = 1000` MII is exactly 0.40 and the flag is off. -/
theorem C2_mii_spec :
    (∀ fs : List CleanFact, 0 < totalEnrolments fs →
        mii fs = some (adultEnrolments fs / totalEnrolments fs) ∧
        (migrationHotspot fs = true ↔
          (2 : ℚ) / 5 < adultEnrolments fs / totalEnrolments fs)) ∧
    (mii exampleMiiFacts = some ((2 : ℚ) / 5) ∧
      migrationHotspot exampleMiiFacts = false) := by
  constructor
  · intro fs h
    have hne : totalEnrolments fs ≠ 0 := ne_of_gt h
    refine ⟨by simp [mii, hne], ?_⟩
    simp [migrationHotspot, mii, hne]
  · constructor
    · simp [mii, totalEnrolments, adultEnrolments, exampleMiiFacts,
        measureOf, List.lookup] <;> norm_num
    · simp [migrationHotspot, mii, totalEnrolments, adultEnrolments,
        exampleMiiFacts, measureOf, List.lookup] <;> norm_num

/-- Witness for C2 at the concrete `adult = 400, total = 1000` window. -/
theorem C2_mii_spec_witness :
    0 < totalEnrolments exampleMiiFacts ∧
    (mii exampleMiiFacts
        = some (adultEnrolments exampleMiiFacts
            / totalEnrolments exampleMiiFacts) ∧
      (migrationHotspot exampleMiiFacts = true ↔
        (2 : ℚ) / 5 < adultEnrolments exampleMiiFacts
          / totalEnrolments exampleMiiFacts)) := by
  have h : 0 < totalEnrolments exampleMiiFacts := by
    simp [totalEnrolments, exampleMiiFacts, measureOf, List.lookup] <;> norm_num
  exact ⟨h, C2_mii_spec.1 exampleMiiFacts h⟩

/-- A district window with `bio = 100`, `demo = 50`, `enrolments = 100`. -/
def exampleDhrFacts : List CleanFact :=
  [⟨.enrolment, ⟨2024, 1, 15⟩, "KARNATAKA", "BANGALORE", "560001",
    [("age_0_5", 0), ("age_5_17", 0), ("age_18_greater", 100)]⟩,
   ⟨.biometric_update, ⟨2024, 1, 15⟩, "KARNATAKA", "BANGALORE", "560001",
    [("bio_age_5_17", 60), ("bio_age_17_", 40)]⟩,
   ⟨.demographic_update, ⟨2024, 1, 15⟩, "KARNATAKA", "BANGALORE", "560001",
    [("demo_age_5_17", 30), ("demo_age_17_", 20)]⟩]

/-- C3: with positive enrolments, DHR equals
`(biometric_updates + demographic_updates) / enrolments`, and the "High Risk"
flag holds iff DHR is strictly greater than 1.5; at
`bio = 100, demo = 50, enrolments = 100` DHR is exactly 1.5 and the flag is
off. -/
theorem C3_dhr_spec :
    (∀ fs : List CleanFact, 0 < totalEnrolments fs →
        dhr fs = some ((biometricUpdates fs + demographicUpdates fs)
          / totalEnrolments fs) ∧
        (highRisk fs = true ↔
          (3 : ℚ) / 2 < (biometricUpdates fs + demographicUpdates fs)
            / totalEnrolments fs)) ∧
    (dhr exampleDhrFacts = some ((3 : ℚ) / 2) ∧
      highRisk exampleDhrFacts = false) := by
  constructor
  · intro fs h
    have hne : totalEnrolments fs ≠ 0 := ne_of_gt h
    refine ⟨by simp [dhr, hne], ?_⟩
    simp [highRisk, dhr, hne]
  · constructor
    · simp [dhr, totalEnrolments, biometricUpdates, demographicUpdates,
        exampleDhrFacts, measureOf, List.lookup] <;> norm_num
    · simp [highRisk, dhr, totalEnrolments, biometricUpdates,
        demographicUpdates, exampleDhrFacts, measureOf, List.lookup]
      norm_num

/-- Witness for C3 at the concrete `bio = 100, demo = 50, enrolments = 100`
window. -/
theorem C3_dhr_spec_witness :
    0 < totalEnrolments exampleDhrFacts ∧
    (dhr exampleDhrFacts
        = some ((biometricUpdates exampleDhrFacts
            + demographicUpdates exampleDhrFacts)
          / totalEnrolments exampleDhrFacts) ∧
      (highRisk exampleDhrFacts = true ↔
        (3 : ℚ) / 2 < (biometricUpdates exampleDhrFacts
            + demographicUpdates exampleDhrFacts)
          / totalEnrolments exampleDhrFacts)) := by
  have h : 0 < totalEnrolments exampleDhrFacts := by
    simp [totalEnrolments, exampleDhrFacts, measureOf, List.lookup] <;> norm_num
  exact ⟨h, C3_dhr_spec.1 exampleDhrFacts h⟩

/-- C5: Bronze append is idempotent at the batch level — appending a batch
with identical content a second time is a no-op: the store (hence the Bronze
row count) is unchanged and the original receipt is returned. -/
theorem C5_bronze_append_idempotent :
    ∀ (s : BronzeStore) (b : List RawRecord),
      bronzeAppend (bronzeAppend s b).1 b = bronzeAppend s b ∧
      bronzeRowCount (bronzeAppend (bronzeAppend s b).1 b).1
        = bronzeRowCount (bronzeAppend s b).1 := by
  intro s b
  have key : bronzeAppend (bronzeAppend s b).1 b = bronzeAppend s b := by
    rcases h : s.seen.find? (fun p => p.1 == b) with _ | p
    · simp [bronzeAppend, h, List.find?]
    · simp [bronzeAppend, h]
  exact ⟨key, by rw [key]⟩

/-- Keys already recorded in `seen` never reappear in the deduplicated
output, and the output keys are pairwise distinct. -/
theorem dedupByKey_nodup (fs : List CleanFact) :
    ∀ seen : List (SchemaType × Date × String),
      ((dedupByKey seen fs).map factKey).Nodup ∧
      ∀ k ∈ (dedupByKey seen fs).map factKey, k ∉ seen := by
  induction fs with
  | nil => intro seen; simp [dedupByKey]
  | cons f fs ih =>
      intro seen
      by_cases h : factKey f ∈ seen
      · simpa [dedupByKey, h] using ih seen
      · have ih' := ih (factKey f :: seen)
        refine ⟨?_, ?_⟩
        · simp only [dedupByKey, if_neg h, List.map_cons, List.nodup_cons]
          exact ⟨fun hmem => (ih'.2 _ hmem) (List.mem_cons_self _ _), ih'.1⟩
        · intro k hk
          simp only [dedupByKey, if_neg h, List.map_cons, List.mem_cons]
            at hk
          rcases hk with hk | hk
          · simpa [hk] using h
          · intro hks
            exact (ih'.2 k hk) (List.mem_cons_of_mem _ hks)

/-- C6: the Silver transform is idempotent — it replaces rather than
accumulates, so a second run on the unchanged Bronze snapshot reproduces the
identical Silver snapshot; moreover the produced Silver rows carry pairwise
distinct `(schema_type, date, pincode)` keys, so no row is duplicated. -/
theorem C6_silver_run_idempotent :
    ∀ (t : SchemaType) (st : LakeState),
      silverRun t (silverRun t st) = silverRun t st ∧
      (silverRun t st).bronze = st.bronze ∧
      (((silverRun t st).silver).map factKey).Nodup := by
  intro t st
  refine ⟨rfl, rfl, ?_⟩
  exact (dedupByKey_nodup _ []).1

/-- C7: the maturity classifier is deterministic — two runs with the same
fixed seed on the same Gold feature set (including the growth-rank mapping
from fitted centroids to semantic labels) assign the identical label to
every district; the embedding threads no state besides the seed and the
input, so the run is a function of exactly those. -/
theorem C7_classifier_deterministic :
    ∀ (seed₁ seed₂ : Nat) (input₁ input₂ : List (String × Vec4)),
      seed₁ = seed₂ → input₁ = input₂ →
      runClassifier seed₁ input₁ = runClassifier seed₂ input₂ := by
  intro seed₁ seed₂ input₁ input₂ hs hi
  rw [hs, hi]

/-- Witness for C7: two runs at seed 42 on a concrete three-district feature
set coincide. -/
theorem C7_classifier_deterministic_witness :
    runClassifier 42 [("A", ⟨1, 0, 0, 5⟩), ("B", ⟨2, 1, 1, 1⟩),
        ("C", ⟨0, 2, 3, 9⟩)]
      = runClassifier 42 [("A", ⟨1, 0, 0, 5⟩), ("B", ⟨2, 1, 1, 1⟩),
        ("C", ⟨0, 2, 3, 9⟩)] :=
  C7_classifier_deterministic 42 42 _ _ rfl rfl

/-- Every semantic label is one of the three legal ones. -/
theorem label_mem_closed (l : Label) :
    (l == Label.emerging || l == Label.mature || l == Label.highChurn)
      = true := by
  cases l <;> rfl

/-- C9: every label the classifier exposes is drawn from the closed
three-element set {Emerging, Mature, High Churn}, and the dashboard's
cluster distribution consequently tallies every labeled district under
exactly these three keys. -/
theorem C9_labels_closed :
    (∀ (seed : Nat) (input : List (String × Vec4)),
        (runClassifier seed input).all
          (fun p => p.2 == Label.emerging || p.2 == Label.mature
            || p.2 == Label.highChurn) = true) ∧
    (∀ ls : List (String × Label),
        (clusterDistribution ls).emerging + (clusterDistribution ls).mature
          + (clusterDistribution ls).high_churn = ls.length) := by
  constructor
  · intro seed input
    exact List.all_eq_true.mpr (fun p _ => label_mem_closed p.2)
  · intro ls
    induction ls with
    | nil => rfl
    | cons p ls ih =>
        rcases p with ⟨d, l⟩
        simp only [clusterDistribution, List.countP_cons, List.length_cons]
          at ih ⊢
        cases l <;> simp <;> omega

/-- C10: the dashboard Home page renders the Market Maturity percentage as
`(Mature / total_districts * 100)` to one decimal with a "%" suffix only
when `total_districts > 0`, renders the literal "0%" when the total is 0 or
the data is absent, and therefore never evaluates the division with a zero
denominator (no NaN/Infinity is ever rendered); the identical guard holds
for the churn-rate percentage. -/
theorem C10_home_percentage_guard :
    (∀ d : Option SynthesisData, 0 < totalOf d →
        saturationDisplay d
          = toFixed1 ((matureOf d : ℚ) / (totalOf d : ℚ) * 100) ++ "%" ∧
        churnRateDisplay d
          = toFixed1 ((churnOf d : ℚ) / (totalOf d : ℚ) * 100) ++ "%") ∧
    (∀ d : Option SynthesisData, totalOf d = 0 →
        saturationDisplay d = "0%" ∧ churnRateDisplay d = "0%") ∧
    (saturationDisplay none = "0%" ∧ churnRateDisplay none = "0%") ∧
    (∀ d : Option SynthesisData,
        (saturationDisplay d = "0%" ∨
          ∃ q : ℚ, 0 ≤ q ∧ saturationDisplay d = toFixed1 q ++ "%") ∧
        (churnRateDisplay d = "0%" ∨
          ∃ q : ℚ, 0 ≤ q ∧ churnRateDisplay d = toFixed1 q ++ "%")) := by
  refine ⟨?_, ?_, ⟨rfl, rfl⟩, ?_⟩
  · intro d h
    exact ⟨by simp [saturationDisplay, h], by simp [churnRateDisplay, h]⟩
  · intro d h
    constructor
    · simp [saturationDisplay, h]
    · simp [churnRateDisplay, h]
  · intro d
    by_cases h : 0 < totalOf d
    · constructor
      · right
        exact ⟨(matureOf d : ℚ) / (totalOf d : ℚ) * 100, by positivity,
          by simp [saturationDisplay, h]⟩
      · right
        exact ⟨(churnOf d : ℚ) / (totalOf d : ℚ) * 100, by positivity,
          by simp [churnRateDisplay, h]⟩
    · exact ⟨Or.inl (by simp [saturationDisplay, h]),
        Or.inl (by simp [churnRateDisplay, h])⟩

/-- Witness for C10 at a concrete synthesis payload with 5 mature districts
out of 10 and at absent data. -/
theorem C10_home_percentage_guard_witness :
    (0 < totalOf (some ⟨⟨2, 5, 3⟩, 10, [], []⟩) ∧
      (saturationDisplay (some ⟨⟨2, 5, 3⟩, 10, [], []⟩)
          = toFixed1 ((matureOf (some ⟨⟨2, 5, 3⟩, 10, [], []⟩) : ℚ)
              / (totalOf (some ⟨⟨2, 5, 3⟩, 10, [], []⟩) : ℚ) * 100) ++ "%" ∧
        churnRateDisplay (some ⟨⟨2, 5, 3⟩, 10, [], []⟩)
          = toFixed1 ((churnOf (some ⟨⟨2, 5, 3⟩, 10, [], []⟩) : ℚ)
              / (totalOf (some ⟨⟨2, 5, 3⟩, 10, [], []⟩) : ℚ) * 100) ++ "%")) ∧
    (totalOf (some ⟨⟨2, 5, 3⟩, 0, [], []⟩) = 0 ∧
      (saturationDisplay (some ⟨⟨2, 5, 3⟩, 0, [], []⟩) = "0%" ∧
        churnRateDisplay (some ⟨⟨2, 5, 3⟩, 0, [], []⟩) = "0%")) :=
  ⟨⟨by decide, C10_home_percentage_guard.1 _ (by decide)⟩,
   ⟨rfl, C10_home_percentage_guard.2.1 _ rfl⟩⟩

/-- Sum of a list whose elements are all equal to `c`. -/
theorem list_sum_const (xs : List ℚ) (c : ℚ) (h : ∀ x ∈ xs, x = c) :
    xs.sum = xs.length * c := by
  induction xs with
  | nil => simp
  | cons a l ih =>
      have ha := h a (List.mem_cons_self a l)
      have hl := ih (fun x hx => h x (List.mem_cons_of_mem a hx))
      simp [ha, hl]
      ring

/-- Mean of a non-empty constant series. -/
theorem mean_const (xs : List ℚ) (c : ℚ) (hne : xs ≠ [])
    (h : ∀ x ∈ xs, x = c) : mean xs = c := by
  have hlen : (xs.length : ℚ) ≠ 0 := by
    exact_mod_cast fun h0 => hne (List.length_eq_zero.mp (by exact_mod_cast h0))
  rw [mean, list_sum_const xs c h]
  field_simp

/-- Variance of a non-empty constant series is zero. -/
theorem variance_const (xs : List ℚ) (c : ℚ) (hne : xs ≠ [])
    (h : ∀ x ∈ xs, x = c) : variance xs = 0 := by
  have hz : ∀ y ∈ xs.map (fun x => (x - mean xs) ^ 2), y = 0 := by
    intro y hy
    rcases List.mem_map.mp hy with ⟨x, hx, rfl⟩
    rw [h x hx, mean_const xs c hne h]
    ring
  rw [variance, list_sum_const _ 0 hz]
  simp

/-- C1: OVS is `(stddev / mean) * 10`, reported as `null` (not zero) exactly
when the mean is zero; every constant non-zero daily series scores OVS = 0,
and the spiky series `[10, 10, 10, 500, 10]` scores above 4.0. -/
theorem C1_ovs_spec :
    (∀ xs : List ℚ, mean xs = 0 → ovs xs = none) ∧
    (∀ xs : List ℚ, mean xs ≠ 0 →
        ovs xs = some (stddev xs / ((mean xs : ℚ) : ℝ) * 10)) ∧
    (∀ (xs : List ℚ) (c : ℚ), xs ≠ [] → c ≠ 0 → (∀ x ∈ xs, x = c) →
        ovs xs = some 0) ∧
    (∃ v : ℝ, ovs [10, 10, 10, 500, 10] = some v ∧ 4 < v) := by
  refine ⟨?_, ?_, ?_, ?_⟩
  · intro xs h
    simp [ovs, h]
  · intro xs h
    simp [ovs, h]
  · intro xs c hne hc h
    have hm : mean xs = c := mean_const xs c hne h
    have hm0 : mean xs ≠ 0 := by rw [hm]; exact hc
    have hv : variance xs = 0 := variance_const xs c hne h
    rw [ovs, if_neg hm0, stddev, hv]
    norm_num
  · have hm : mean [(10 : ℚ), 10, 10, 500, 10] = 108 := by
      norm_num [mean]
    have hv : variance [(10 : ℚ), 10, 10, 500, 10] = 38416 := by
      norm_num [variance, hm]
    have hs : stddev [(10 : ℚ), 10, 10, 500, 10] = 196 := by
      rw [stddev, hv]
      rw [show (((38416 : ℚ) : ℝ)) = (196 : ℝ) ^ 2 by norm_num]
      exact Real.sqrt_sq (by norm_num)
    have hm0 : mean [(10 : ℚ), 10, 10, 500, 10] ≠ 0 := by
      rw [hm]; norm_num
    refine ⟨196 / 108 * 10, ?_, by norm_num⟩
    rw [ovs, if_neg hm0, hs, hm]
    norm_num

/-- Witness for C1 at concrete series: an all-zero series has zero mean and
reports `null`; a constant non-zero series scores 0; the spiky series scores
above 4.0. -/
theorem C1_ovs_spec_witness :
    mean [(0 : ℚ), 0, 0] = 0 ∧ ovs [(0 : ℚ), 0, 0] = none ∧
    ovs [(7 : ℚ), 7, 7] = some 0 ∧
    (∃ v : ℝ, ovs [10, 10, 10, 500, 10] = some v ∧ 4 < v) := by
  have h0 : mean [(0 : ℚ), 0, 0] = 0 := by norm_num [mean]
  refine ⟨h0, C1_ovs_spec.1 _ h0, ?_, C1_ovs_spec.2.2.2⟩
  exact C1_ovs_spec.2.2.1 [7, 7, 7] 7 (by simp) (by norm_num)
    (by intro x hx; rcases List.mem_cons.mp hx with h | hx <;>
      first
        | exact h
        | rcases List.mem_cons.mp hx with h | hx <;>
          first
            | exact h
            | simpa using hx)

/-- Districts labeled by a classifier run all come from its input. -/
theorem runClassifier_fst_mem (seed : Nat) (input : List (String × Vec4))
    (d : String) :
    d ∈ (runClassifier seed input).map Prod.fst →
    d ∈ input.map Prod.fst := by
  rw [runClassifier]
  split
  · simp
  · intro h
    simpa [standardize, List.map_map, Function.comp] using h

/-- C8: a district with fewer observations in the window than the
configurable minimum sample count is excluded from scoring and flagged
`insufficient_data`, is never assigned a numeric OVS, and is excluded from
clustering — it appears in no classifier label list. -/
theorem C8_insufficient_data_excluded :
    ∀ (minSamples seed : Nat) (facts : List CleanFact) (d : String),
      (districtObs facts d).length < minSamples →
      goldResult minSamples facts d = .insufficientData ∧
      resultOVS (goldResult minSamples facts d) = none ∧
      d ∉ (clusterInput minSamples facts).map Prod.fst ∧
      d ∉ (pipelineLabels seed minSamples facts).map Prod.fst := by
  intro minS seed facts d h
  have hg : goldResult minS facts d = .insufficientData := by
    rw [goldResult, if_pos h]
  have hni : d ∉ (clusterInput minS facts).map Prod.fst := by
    intro hmem
    rcases List.mem_map.mp hmem with ⟨p, hp, hfst⟩
    rcases List.mem_filterMap.mp hp with ⟨q, hq, hq2⟩
    rcases List.mem_map.mp ((by rw [goldAggregate] at hq; exact hq) :
      q ∈ (districtsOf facts).map
        (fun d' => (d', goldResult minS facts d'))) with ⟨d', _, rfl⟩
    rcases hr : goldResult minS facts d' with _ | f
    · rw [hr] at hq2
      simp at hq2
    · rw [hr] at hq2
      have hpq : p = (d', vec4Of f) := by simpa using hq2.symm
      have hdd : d' = d := by rw [hpq] at hfst; exact hfst
      rw [hdd] at hr
      rw [hg] at hr
      exact absurd hr (by simp)
  refine ⟨hg, by rw [hg]; rfl, hni, ?_⟩
  intro hmem
  rw [pipelineLabels] at hmem
  exact hni (runClassifier_fst_mem seed (clusterInput minS facts) d hmem)

/-- A single district with only three daily enrolment observations. -/
def exampleFewFacts : List CleanFact :=
  [⟨.enrolment, ⟨2024, 1, 1⟩, "KARNATAKA", "X", "560001",
    [("age_0_5", 10), ("age_5_17", 10), ("age_18_greater", 10)]⟩,
   ⟨.enrolment, ⟨2024, 1, 2⟩, "KARNATAKA", "X", "560001",
    [("age_0_5", 12), ("age_5_17", 9), ("age_18_greater", 11)]⟩,
   ⟨.enrolment, ⟨2024, 1, 3⟩, "KARNATAKA", "X", "560001",
    [("age_0_5", 8), ("age_5_17", 14), ("age_18_greater", 13)]⟩]

/-- Witness for C8: with 3 observations against a minimum sample count of 7,
district "X" is flagged `insufficient_data`, carries no OVS and is absent
from the labels. -/
theorem C8_insufficient_data_excluded_witness :
    (districtObs exampleFewFacts "X").length < 7 ∧
    (goldResult 7 exampleFewFacts "X" = .insufficientData ∧
      resultOVS (goldResult 7 exampleFewFacts "X") = none ∧
      "X" ∉ (clusterInput 7 exampleFewFacts).map Prod.fst ∧
      "X" ∉ (pipelineLabels 0 7 exampleFewFacts).map Prod.fst) := by
  have h : (districtObs exampleFewFacts "X").length < 7 := by
    simp [districtObs, exampleFewFacts]
  exact ⟨h, C8_insufficient_data_excluded 7 0 exampleFewFacts "X" h⟩

end AadharPulse
